import Mathlib

/-!
Verification of the sales-forecasting pipeline against its specification.

The definitions below are shallow embeddings of the Python source files:

* `app/api/assistant_client.py` — the Market Augmenter (`augment_sales_response`
  and its polling loop `_wait_for_run`);
* `app/api/openai_client.py` — the Query Extractor wrapper (`process_sales_query`)
  and the Inventory Responder (`process_inventory_query`);
* `app/data/inventory/inventory_service.py` — the Inventory Lookup (`get_inventory`);
* `app/data/sales_data_service.py` — the Data Summarizer (`generate_sales_data_summary`);
* `app/main.py` — the orchestrator (`main`) and the Response Formatter
  (`format_augmented_response`).

External collaborators (the hosted LLM API, the JSON standard library, the
static data files) are modelled as parameters: the extraction result, the
assistant reply, the run-status sequence, the catalog contents and the
JSON-loads outcome are inputs of the embedded functions, so every theorem
quantifies over all of their behaviours.

Time is modelled abstractly: one unit of model time corresponds to one
`time.sleep(1)` in the polling loop, and `time.time() - start_time` is the
number of completed sleeps, so the poll of iteration `k` happens at time `k`.
-/

namespace SalesForecasting

/-! ## Run-status polling loop (`assistant_client.py`, `_wait_for_run`) -/

/-- Terminal-failure statuses checked by `_wait_for_run`
(`run.status in ["failed", "cancelled", "expired"]`). -/
def isFailureStatus (s : String) : Bool :=
  s == "failed" || s == "cancelled" || s == "expired"

/-- A status on which the loop stops: success (`"completed"`) or terminal failure. -/
def isTerminalStatus (s : String) : Bool :=
  s == "completed" || isFailureStatus s

/-- Outcome of `_wait_for_run`: the run is returned on `"completed"`, a generic
exception carrying the terminal status is raised on failure, and a timeout
exception is raised once the elapsed time reaches the ceiling.  Each outcome
records the model time at which it happened. -/
inductive WaitOutcome where
  | completed (t : Nat)
  | runFailed (status : String) (t : Nat)
  | timeout (t : Nat)
deriving DecidableEq, Repr

/-- The body of the `while time.time() - start_time < max_wait_seconds` loop.
`t` is the current model time (number of completed 1-unit sleeps) and
`remaining = max_wait_seconds - t`, so `remaining > 0` iff the loop guard
`t < max_wait_seconds` holds.  Returns the list of times at which the run
status was polled, together with the outcome. -/
def waitLoop (poll : Nat → String) (t : Nat) : Nat → List Nat × WaitOutcome
  | 0 => ([], WaitOutcome.timeout t)
  | remaining + 1 =>
    let s := poll t
    if s == "completed" then ([t], WaitOutcome.completed t)
    else if isFailureStatus s then ([t], WaitOutcome.runFailed s t)
    else
      match waitLoop poll (t + 1) remaining with
      | (polls, outcome) => (t :: polls, outcome)

/-- `_wait_for_run` from `assistant_client.py`: polls the run status once per
time unit starting at time 0, until a terminal status or until the elapsed
time reaches `maxWait`.  `poll t` is the status the external API reports at
time `t`. -/
def wait_for_run (poll : Nat → String) (maxWait : Nat) : List Nat × WaitOutcome :=
  waitLoop poll 0 maxWait

/-- Default value of the `max_wait_seconds` parameter of `_wait_for_run`. -/
def max_wait_seconds_default : Nat := 120

lemma completed_false_of_failure {s : String} (h : isFailureStatus s = true) :
    (s == "completed") = false := by
  simp only [isFailureStatus, Bool.or_eq_true, beq_iff_eq] at h
  rcases h with (h | h) | h <;> subst h <;> rfl

lemma not_terminal_parts {s : String} (h : isTerminalStatus s = false) :
    (s == "completed") = false ∧ isFailureStatus s = false := by
  simp only [isTerminalStatus, Bool.or_eq_false_iff] at h
  exact h

lemma waitLoop_timeout_of_no_terminal (poll : Nat → String) :
    ∀ remaining t, (∀ j, t ≤ j → j < t + remaining → isTerminalStatus (poll j) = false) →
      waitLoop poll t remaining = (List.range' t remaining, WaitOutcome.timeout (t + remaining)) := by
  intro remaining
  induction remaining with
  | zero => intro t _; simp [waitLoop, List.range']
  | succ n ih =>
    intro t h
    have ht := not_terminal_parts (h t le_rfl (by omega))
    have ihr := ih (t + 1) (by intro j h1 h2; exact h j (by omega) (by omega))
    simp only [waitLoop, ht.1, ht.2, Bool.false_eq_true, if_false, ihr]
    rw [show t + (n + 1) = t + 1 + n by omega]
    rfl

lemma waitLoop_runFailed_of_first_failure (poll : Nat → String) :
    ∀ remaining t k, t ≤ k → k < t + remaining →
      isFailureStatus (poll k) = true →
      (∀ j, t ≤ j → j < k → isTerminalStatus (poll j) = false) →
      waitLoop poll t remaining =
        (List.range' t (k + 1 - t), WaitOutcome.runFailed (poll k) k) := by
  intro remaining
  induction remaining with
  | zero => intro t k h1 h2; omega
  | succ n ih =>
    intro t k h1 h2 hk hbefore
    by_cases htk : t = k
    · subst htk
      have hc := completed_false_of_failure hk
      simp only [waitLoop, hc, Bool.false_eq_true, if_false, hk, if_true]
      rw [show t + 1 - t = 1 by omega]
      rfl
    · have htlt : t < k := by omega
      have ht := not_terminal_parts (hbefore t le_rfl htlt)
      have ihr := ih (t + 1) k (by omega) (by omega) hk
        (by intro j ha hb; exact hbefore j (by omega) hb)
      simp only [waitLoop, ht.1, ht.2, Bool.false_eq_true, if_false, ihr]
      rw [show k + 1 - t = (k + 1 - (t + 1)) + 1 by omega]
      rfl

lemma waitLoop_timeout_time (poll : Nat → String) :
    ∀ remaining t polls u, waitLoop poll t remaining = (polls, WaitOutcome.timeout u) →
      u = t + remaining := by
  intro remaining
  induction remaining with
  | zero =>
    intro t polls u h
    simp [waitLoop] at h
    omega
  | succ n ih =>
    intro t polls u h
    simp only [waitLoop] at h
    by_cases hc : (poll t == "completed") = true
    · simp [hc] at h
    · simp only [hc, Bool.false_eq_true, if_false] at h
      by_cases hf : isFailureStatus (poll t) = true
      · simp [hf] at h
      · simp only [hf, Bool.false_eq_true, if_false] at h
        rcases hw : waitLoop poll (t + 1) n with ⟨polls2, outcome2⟩
        rw [hw] at h
        rw [Prod.mk.injEq] at h
        have h2 : outcome2 = WaitOutcome.timeout u := h.2
        have := ih (t + 1) polls2 u (by rw [hw, h2])
        omega

/-- Claim C3: if the polled status sequence first reaches a terminal-failure
value (`failed`, `cancelled` or `expired`) at poll `k` inside the wait window,
then `_wait_for_run` raises an error carrying exactly that status, and the
polls performed are exactly those at times `0, 1, ..., k` — none after the
failure was observed. -/
theorem wait_for_run_terminal_failure (poll : Nat → String) (maxWait k : Nat)
    (hk : k < maxWait)
    (hfail : isFailureStatus (poll k) = true)
    (hbefore : ∀ j, j < k → isTerminalStatus (poll j) = false) :
    wait_for_run poll maxWait = (List.range (k + 1), WaitOutcome.runFailed (poll k) k) := by
  unfold wait_for_run
  have := waitLoop_runFailed_of_first_failure poll maxWait 0 k (Nat.zero_le k)
    (by omega) hfail (by intro j _ hb; exact hbefore j hb)
  rw [this]
  rw [List.range_eq_range']
  simp

/-- Witness for C3: the run of the specification example, transitioning
`queued → in_progress → failed`, makes `_wait_for_run` stop with the error
carrying status `"failed"` after exactly the three polls at times 0, 1, 2. -/
theorem wait_for_run_terminal_failure_witness :
    wait_for_run (fun t => if t = 0 then "queued" else if t = 1 then "in_progress" else "failed")
      max_wait_seconds_default =
      ([0, 1, 2], WaitOutcome.runFailed "failed" 2) := by
  have h := wait_for_run_terminal_failure
    (fun t => if t = 0 then "queued" else if t = 1 then "in_progress" else "failed")
    max_wait_seconds_default 2 (by decide) (by decide)
    (by decide)
  simpa using h

/-- Claim C4: `_wait_for_run` polls at a fixed 1-time-unit interval (the polls
of a run that never reaches a terminal status are exactly the consecutive
times `0, 1, ..., 119` for the default 120-unit ceiling), it raises the
timeout error at time 120 for such a run, and in general a timeout is raised
at a time no earlier than the configured ceiling. -/
theorem wait_for_run_timeout (poll : Nat → String) (hnt : ∀ t, isTerminalStatus (poll t) = false) :
    wait_for_run poll max_wait_seconds_default =
      (List.range max_wait_seconds_default, WaitOutcome.timeout max_wait_seconds_default) ∧
    ∀ (poll2 : Nat → String) (maxWait : Nat) (polls : List Nat) (u : Nat),
      wait_for_run poll2 maxWait = (polls, WaitOutcome.timeout u) → maxWait ≤ u := by
  constructor
  · unfold wait_for_run
    have := waitLoop_timeout_of_no_terminal poll max_wait_seconds_default 0
      (by intro j _ _; exact hnt j)
    rw [this, List.range_eq_range', Nat.zero_add]
  · intro poll2 maxWait polls u h
    have := waitLoop_timeout_time poll2 maxWait 0 polls u h
    omega

/-- Witness for C4: a run that never leaves `in_progress` is polled at the 120
consecutive times 0..119 and times out exactly at the 120-unit ceiling. -/
theorem wait_for_run_timeout_witness :
    wait_for_run (fun _ => "in_progress") max_wait_seconds_default =
      (List.range max_wait_seconds_default, WaitOutcome.timeout max_wait_seconds_default) :=
  (wait_for_run_timeout (fun _ => "in_progress") (fun _ => rfl)).1

/-! ## Inventory Lookup (`inventory_service.py`, `get_inventory`) -/

/-- An entry of the `inventory_items` array of the static catalog file
`stock-data.json`.  The file itself is not part of `src/`, so the catalog
contents are a parameter of the embedding; the spec only requires it to be a
preloaded static collection of records. -/
structure RawInventoryItem where
  id : String
  name : String
  quantity_in_stock : Int
deriving DecidableEq, Repr

/-- The Pydantic `InventoryItem` model returned by `get_inventory`. -/
structure InventoryItem where
  id : String
  name : String
  quantity_in_stock : Int
deriving DecidableEq, Repr

/-- The model built by `get_inventory` from a matching catalog entry. -/
def RawInventoryItem.toItem (it : RawInventoryItem) : InventoryItem :=
  ⟨it.id, it.name, it.quantity_in_stock⟩

/-- `get_inventory` from `inventory_service.py`: scans `inventory_items` in
order, returns a model built from the first entry whose `name` equals the
requested product name, and `none` when no entry matches. -/
def get_inventory (items : List RawInventoryItem) (product_name : String) : Option InventoryItem :=
  match items with
  | [] => none
  | item :: rest =>
    if item.name == product_name then some item.toItem
    else get_inventory rest product_name

lemma find?_pred_of_eq_some {α : Type} (p : α → Bool) :
    ∀ (l : List α) (a : α), l.find? p = some a → p a = true := by
  intro l
  induction l with
  | nil => intro a h; cases h
  | cons x xs ih =>
    intro a h
    cases hx : p x with
    | false =>
      rw [List.find?_cons_of_neg _ (by simp [hx])] at h
      exact ih a h
    | true =>
      rw [List.find?_cons_of_pos _ hx] at h
      injection h with h
      subst h
      exact hx

lemma get_inventory_eq_find (items : List RawInventoryItem) (product_name : String) :
    get_inventory items product_name =
      (items.find? (fun it => it.name == product_name)).map RawInventoryItem.toItem := by
  induction items with
  | nil => rfl
  | cons item rest ih =>
    by_cases hb : (item.name == product_name) = true
    · simp [get_inventory, List.find?_cons, hb]
    · simp only [Bool.not_eq_true] at hb
      simp [get_inventory, List.find?_cons, hb, ih]

/-- Claim C6: `get_inventory` is a pure function of the catalog and the
requested name.  It equals a first-match lookup by exact (case-sensitive)
string equality on `name`; when no catalog entry has exactly the requested
name it returns `none` (a normal value, not an error — the return type is
`Option`); and any returned record comes from a catalog entry whose name is
exactly the input. -/
theorem get_inventory_spec (items : List RawInventoryItem) (product_name : String) :
    get_inventory items product_name =
      (items.find? (fun it => it.name == product_name)).map RawInventoryItem.toItem ∧
    ((∀ it ∈ items, it.name ≠ product_name) → get_inventory items product_name = none) ∧
    (∀ rec, get_inventory items product_name = some rec →
      rec.name = product_name ∧ ∃ it ∈ items, it.name = product_name ∧ rec = it.toItem) := by
  refine ⟨get_inventory_eq_find items product_name, ?_, ?_⟩
  · intro h
    rw [get_inventory_eq_find]
    have : items.find? (fun it => it.name == product_name) = none := by
      rw [List.find?_eq_none]
      intro it hit
      simp only [beq_eq_false_iff_ne, ne_eq, Bool.not_eq_true]
      exact fun hc => h it hit (by simpa using hc)
    rw [this]
    rfl
  · intro rec hrec
    rw [get_inventory_eq_find] at hrec
    rcases hfind : items.find? (fun it => it.name == product_name) with _ | it
    · rw [hfind] at hrec; cases hrec
    · rw [hfind] at hrec
      have hmem := List.mem_of_find?_eq_some hfind
      have hname : ((fun (a : RawInventoryItem) => a.name == product_name) it) = true :=
        find?_pred_of_eq_some _ items it hfind
      have hname2 : it.name = product_name := by simpa using hname
      have hrec2 : rec = it.toItem := by
        simpa using hrec.symm
      refine ⟨?_, it, hmem, hname2, hrec2⟩
      rw [hrec2]
      exact hname2

/-- Example catalog used by concrete witnesses: the record of the
specification example. -/
def exampleCatalog : List RawInventoryItem :=
  [⟨"INV-3", "Energy Bars", 500⟩]

/-- Witness for C6: applying the lookup theorem at the concrete catalog shows
that a query differing only in letter case (`"energy bars"` against the
catalog name `"Energy Bars"`) is an exact-match miss and yields the normal
absent value `none`. -/
theorem get_inventory_spec_witness :
    get_inventory exampleCatalog "energy bars" = none :=
  (get_inventory_spec exampleCatalog "energy bars").2.1 (by decide)

/-! ## Inventory Responder tool loop (`openai_client.py`, `process_inventory_query`) -/

/-- A `get_inventory` tool call emitted by the model in the first round of
`process_inventory_query`.  `product_name` is the value of the
`"product_name"` key obtained by `json.loads(tool_call.arguments)`; the
JSON decoding of the arguments string is performed by the standard library
and is modelled as already done. -/
structure ToolCall where
  name : String
  call_id : String
  product_name : String
deriving DecidableEq, Repr

/-- A message of the transcript assembled by `process_inventory_query`. -/
inductive TranscriptMsg where
  | system (content : String)
  | user (content : String)
  | assistant (content : String)
  | toolCall (tc : ToolCall)
  | functionCallOutput (call_id : String) (output : String)
deriving DecidableEq, Repr

/-- `json.dumps(inventory.model_dump())` for an `InventoryItem`. -/
def dumpInventoryItem (it : InventoryItem) : String :=
  "\x7b\"id\": \"" ++ it.id ++ "\", \"name\": \"" ++ it.name ++
    "\", \"quantity_in_stock\": " ++ toString it.quantity_in_stock ++ "\x7d"

/-- The body of the `for tool_call in inventory_completion.output` loop: a
`get_inventory` call appends the tool call and a `function_call_output`
message whose `output` is the dumped record when the lookup found one and the
empty string when it did not (`json.dumps(inventory.model_dump()) if inventory
else ""`); any other call appends nothing. -/
def handleToolCall (catalog : List RawInventoryItem) (tc : ToolCall) : List TranscriptMsg :=
  if tc.name == "get_inventory" then
    [TranscriptMsg.toolCall tc,
     TranscriptMsg.functionCallOutput tc.call_id
       (match get_inventory catalog tc.product_name with
        | some it => dumpInventoryItem it
        | none => "")]
  else []

/-- Python `repr` of a list of strings, as interpolated by the f-string of the
user message (`f"... the following products: \x7bproducts\x7d"`). -/
def reprPyStringList (products : List String) : String :=
  "[" ++ String.intercalate ", " (products.map (fun s => "\x27" ++ s ++ "\x27")) ++ "]"

/-- The transcript assembled by `process_inventory_query` before the second
completion: system and user messages, the first-round assistant text, then
the tool-call/tool-result pairs appended by the loop.  The first-round model
output (its text and its tool calls) is external and is passed as parameters. -/
def process_inventory_query_transcript (catalog : List RawInventoryItem)
    (products : List String) (firstOutputText : String) (toolCalls : List ToolCall) :
    List TranscriptMsg :=
  [TranscriptMsg.system "You are a helpful assistant that can answer questions about the inventory of an FMCG company.",
   TranscriptMsg.user ("What is the inventory for the following products: " ++ reprPyStringList products),
   TranscriptMsg.assistant firstOutputText]
  ++ (toolCalls.map (handleToolCall catalog)).flatten

/-- Claim C7: for every `get_inventory` tool call whose product has no catalog
entry, the loop appends the tool-result message with the fixed absence marker
`""` as its payload; that marker is distinct from every dumped inventory
record (so no quantity is fabricated), and it appears in the assembled
transcript whenever the call does. -/
theorem tool_result_not_found_marker (catalog : List RawInventoryItem) (tc : ToolCall)
    (h1 : tc.name = "get_inventory")
    (h2 : get_inventory catalog tc.product_name = none) :
    handleToolCall catalog tc =
      [TranscriptMsg.toolCall tc, TranscriptMsg.functionCallOutput tc.call_id ""] ∧
    (∀ it : InventoryItem, dumpInventoryItem it ≠ "") ∧
    ∀ products firstOutputText toolCalls, tc ∈ toolCalls →
      TranscriptMsg.functionCallOutput tc.call_id "" ∈
        process_inventory_query_transcript catalog products firstOutputText toolCalls := by
  have hhandle : handleToolCall catalog tc =
      [TranscriptMsg.toolCall tc, TranscriptMsg.functionCallOutput tc.call_id ""] := by
    simp [handleToolCall, h1, h2]
  refine ⟨hhandle, ?_, ?_⟩
  · intro it h
    have hlen := congrArg String.length h
    simp only [dumpInventoryItem, String.length_append] at hlen
    have l1 : String.length "\x7b\"id\": \"" = 8 := by decide
    have l2 : String.length "\", \"name\": \"" = 12 := by decide
    have l3 : String.length "" = 0 := by decide
    omega
  · intro products firstOutputText toolCalls hmem
    unfold process_inventory_query_transcript
    rw [List.mem_append]
    right
    rw [List.mem_flatten]
    refine ⟨handleToolCall catalog tc, List.mem_map_of_mem _ hmem, ?_⟩
    rw [hhandle]
    simp

/-- Witness for C7: a concrete `get_inventory` tool call for a product absent
from the concrete catalog gets the empty-string absence payload appended. -/
theorem tool_result_not_found_marker_witness :
    handleToolCall exampleCatalog ⟨"get_inventory", "call_1", "Granola Bars"⟩ =
      [TranscriptMsg.toolCall ⟨"get_inventory", "call_1", "Granola Bars"⟩,
       TranscriptMsg.functionCallOutput "call_1" ""] :=
  (tool_result_not_found_marker exampleCatalog ⟨"get_inventory", "call_1", "Granola Bars"⟩
    rfl (by decide)).1

/-! ## Data Summarizer (`sales_data_service.py`, `generate_sales_data_summary`) -/

/-- A row of the sales dataset, with the columns the summarizer reads.
Dates are modelled as naturals (their order is all the code uses).  The
floating-point columns `Revenue` and `Price_Per_Unit`, and the derived
float statistics (averages, total revenue), are outside this integer model;
no claim concerns them.  The `Sales_Units` column is integer-valued. -/
structure SalesRow where
  date : Nat
  product : String
  sales_units : Int
  year : Nat
  month : Nat
  quarter : Nat
deriving DecidableEq, Repr

/-- `pandas.Series.unique`: the distinct values of a column in order of first
appearance. -/
def pdUnique : List String → List String
  | [] => []
  | x :: xs => x :: pdUnique (xs.filter (fun y => y != x))
termination_by l => l.length
decreasing_by
  simp_wf
  have := List.length_filter_le (fun y => y != x) xs
  omega

/-- The integer statistic of the per-product statistics block
(`int(product_data["Sales_Units"].sum())` over the rows filtered to one
product). -/
structure ProductStats where
  total_sales_units : Int
deriving DecidableEq, Repr

/-- The digest built by `generate_sales_data_summary` (integer part; the
monthly/quarterly trend blocks and the float statistics of the source are
not referenced by any claim and are outside this model). -/
structure SalesSummary where
  start_date : Nat
  end_date : Nat
  products : List String
  total_records : Nat
  product_statistics : List (String × ProductStats)
deriving DecidableEq, Repr

/-- `int(product_data["Sales_Units"].sum())` for one product: filter the rows
to those whose `Product` equals `p`, then sum their `Sales_Units`. -/
def product_total_sales_units (rows : List SalesRow) (p : String) : Int :=
  ((rows.filter (fun row => row.product == p)).map SalesRow.sales_units).sum

/-- `generate_sales_data_summary` from `sales_data_service.py`.  On an empty
dataset the date-range computation fails (`min`/`max` of an empty column has
no date to format), modelled as `none`.  Otherwise: date range, distinct
products in first-appearance order, record count, and per-product statistics
keyed by product name. -/
def generate_sales_data_summary (rows : List SalesRow) : Option SalesSummary :=
  match rows with
  | [] => none
  | first :: rest =>
    let all := first :: rest
    let products := pdUnique (all.map SalesRow.product)
    some {
      start_date := rest.foldl (fun a r => min a r.date) first.date,
      end_date := rest.foldl (fun a r => max a r.date) first.date,
      products := products,
      total_records := all.length,
      product_statistics := products.map (fun p => (p, ⟨product_total_sales_units all p⟩)) }

lemma mem_pdUnique_aux : ∀ (n : Nat) (l : List String), l.length ≤ n →
    ∀ (x : String), (x ∈ pdUnique l ↔ x ∈ l) := by
  intro n
  induction n with
  | zero =>
    intro l hl x
    match l with
    | [] => simp [pdUnique]
    | y :: ys => simp at hl
  | succ n ih =>
    intro l hl x
    match l with
    | [] => simp [pdUnique]
    | y :: ys =>
      have hlen : (ys.filter (fun z => z != y)).length ≤ n := by
        have := List.length_filter_le (fun z => z != y) ys
        simp at hl
        omega
      have ihr := ih (ys.filter (fun z => z != y)) hlen x
      simp only [pdUnique, List.mem_cons, ihr, List.mem_filter]
      constructor
      · rintro (h | ⟨h, _⟩)
        · exact Or.inl h
        · exact Or.inr h
      · rintro (h | h)
        · exact Or.inl h
        · by_cases hxy : x = y
          · exact Or.inl hxy
          · exact Or.inr ⟨h, by simpa using hxy⟩

lemma mem_pdUnique (l : List String) (x : String) : x ∈ pdUnique l ↔ x ∈ l :=
  mem_pdUnique_aux l.length l le_rfl x

lemma lookup_map_self (l : List String) (f : String → ProductStats) (p : String)
    (hp : p ∈ l) : (l.map (fun q => (q, f q))).lookup p = some (f p) := by
  induction l with
  | nil => cases hp
  | cons q t ih =>
    by_cases hpq : p = q
    · subst hpq
      simp [List.lookup]
    · have hpt : p ∈ t := by
        rcases List.mem_cons.mp hp with h | h
        · exact absurd h hpq
        · exact h
      have hbeq : (p == q) = false := by simpa using hpq
      simp [List.lookup, hbeq, ih hpt]

lemma foldl_units_eq_filter_sum (p : String) :
    ∀ (rows : List SalesRow) (acc : Int),
      rows.foldl (fun acc row => if row.product == p then acc + row.sales_units else acc) acc =
        acc + ((rows.filter (fun row => row.product == p)).map SalesRow.sales_units).sum := by
  intro rows
  induction rows with
  | nil => intro acc; simp
  | cons row rest ih =>
    intro acc
    by_cases hb : (row.product == p) = true
    · simp only [List.foldl_cons, hb, if_true, List.filter_cons, List.map_cons, List.sum_cons]
      rw [ih]
      ring
    · simp only [Bool.not_eq_true] at hb
      simp only [List.foldl_cons, hb, Bool.false_eq_true, if_false, List.filter_cons]
      rw [ih]

/-- Claim C5: for every non-empty dataset and every product appearing in one
of its rows, the digest reports that product in `product_statistics` with a
`total_sales_units` equal to the sum of the `Sales_Units` of exactly that
the rows of that product (stated as a single left-to-right fold over the raw
rows). -/
theorem summary_total_units_correct (rows : List SalesRow) (p : String)
    (hne : rows ≠ [])
    (hp : ∃ row ∈ rows, row.product = p) :
    ∃ s, generate_sales_data_summary rows = some s ∧
      s.product_statistics.lookup p =
        some ⟨rows.foldl (fun acc row => if row.product == p then acc + row.sales_units else acc) 0⟩ := by
  match rows with
  | [] => exact absurd rfl hne
  | first :: rest =>
    refine ⟨_, rfl, ?_⟩
    have hmem : p ∈ pdUnique ((first :: rest).map SalesRow.product) := by
      rw [mem_pdUnique]
      rcases hp with ⟨row, hrow, hprod⟩
      exact hprod ▸ List.mem_map_of_mem SalesRow.product hrow
    have hlk := lookup_map_self (pdUnique ((first :: rest).map SalesRow.product))
      (fun p => ⟨product_total_sales_units (first :: rest) p⟩) p hmem
    simp only [generate_sales_data_summary] at *
    rw [hlk]
    congr 1
    rw [foldl_units_eq_filter_sum]
    simp [product_total_sales_units]

/-- Example dataset used by the C5 witness. -/
def exampleRows : List SalesRow :=
  [⟨1, "Energy Bars", 3, 2024, 1, 1⟩,
   ⟨2, "Protein Bars", 5, 2024, 1, 1⟩,
   ⟨3, "Energy Bars", 4, 2024, 1, 1⟩]

/-- Witness for C5: on a concrete three-row dataset the digest reports, for
the product with two rows, the sum of the units of exactly those two rows. -/
theorem summary_total_units_correct_witness :
    (∃ s, generate_sales_data_summary exampleRows = some s ∧
      s.product_statistics.lookup "Energy Bars" =
        some ⟨exampleRows.foldl
          (fun acc row => if row.product == "Energy Bars" then acc + row.sales_units else acc) 0⟩) ∧
    (exampleRows.foldl
      (fun acc row => if row.product == "Energy Bars" then acc + row.sales_units else acc) 0 = 7) :=
  ⟨summary_total_units_correct exampleRows "Energy Bars" (by decide) (by decide), by decide⟩

/-! ## Data model (`models/schema.py`) -/

/-- The nested `Product` model of `SalesAnalysisResponse`. -/
structure Product where
  name : String
deriving DecidableEq, Repr

/-- `SalesAnalysisResponse`: the structured extraction result.  Its fields are
exactly `response_text`, `products` and `time_period`; in particular it
defines no `data` field. -/
structure SalesAnalysisResponse where
  response_text : String
  products : List Product
  time_period : String
deriving DecidableEq, Repr

/-- `InventoryResponse`: the structured answer of the Inventory Responder. -/
structure InventoryResponse where
  answer : String
  source : String
deriving DecidableEq, Repr

/-- Entry of `NewMarketInsights.market_trends`. -/
structure MarketTrend where
  trend : String
  impact : String
  description : String
deriving DecidableEq, Repr

/-- Entry of `NewMarketInsights.competitive_landscape`. -/
structure Competitor where
  competitor : String
  action : String
  impact : String
  description : String
deriving DecidableEq, Repr

/-- Entry of `NewMarketInsights.regulatory_considerations`. -/
structure RegulatoryConsideration where
  regulation : String
  timeline : String
  impact : String
  description : String
deriving DecidableEq, Repr

/-- `NewMarketInsights`: the strict-schema market-insights model, the declared
type of `AugmentedResponse.market_insights`. -/
structure NewMarketInsights where
  market_trends : List MarketTrend
  competitive_landscape : List Competitor
  regulatory_considerations : List RegulatoryConsideration
deriving DecidableEq, Repr

/-- `AugmentedResponse` as declared in `schema.py`: the extraction result, the
market insights, and a timestamp defaulting to the wall clock at construction
time (modelled as a natural number). -/
structure AugmentedResponse where
  initial_response : SalesAnalysisResponse
  market_insights : NewMarketInsights
  timestamp : Nat
deriving DecidableEq, Repr

/-! ## Response Formatter (`main.py`, `format_augmented_response`) -/

/-- The impact colour annotation computed for every insight entry:
`f"**:green[...]**"` for `Positive`, red for `Negative`, blue for `Neutral`,
plain bold otherwise. -/
def impactFormatted (impact : String) : String :=
  if impact == "Positive" then "**:green[" ++ impact ++ "]**"
  else if impact == "Negative" then "**:red[" ++ impact ++ "]**"
  else if impact == "Neutral" then "**:blue[" ++ impact ++ "]**"
  else "**" ++ impact ++ "**"

/-- One bullet of the market-trends section (`if trend_name:` is string
truthiness, i.e. non-emptiness). -/
def formatMarketTrend (mt : MarketTrend) : String :=
  if mt.trend != "" then
    "* **" ++ mt.trend ++ "** (" ++ impactFormatted mt.impact ++ "): " ++ mt.description
  else "* " ++ mt.description

/-- One bullet of the competitive-landscape section. -/
def formatCompetitor (c : Competitor) : String :=
  if c.competitor != "" then
    "* **" ++ c.competitor ++ "** - " ++ c.action ++ " (" ++ impactFormatted c.impact ++ "): " ++ c.description
  else "* " ++ c.description

/-- One bullet of the regulatory-considerations section. -/
def formatRegulatory (r : RegulatoryConsideration) : String :=
  if r.regulation != "" then
    "* **" ++ r.regulation ++ "** - " ++ r.timeline ++ " (" ++ impactFormatted r.impact ++ "): " ++ r.description
  else "* " ++ r.description

/-- The final f-string template of `format_augmented_response`: the four
section bodies joined with headers and `---` dividers (including the leading
newline and the trailing newline-plus-indent of the triple-quoted literal). -/
def combineSections (initial mt cl rc : String) : String :=
  "\n## 📊 Historical Data Analysis\n" ++ initial ++
  "\n\n---\n\n## 📈 Market Trends\n" ++ mt ++
  "\n\n---\n\n## 🏢 Competitive Landscape\n" ++ cl ++
  "\n\n---\n\n## 📝 Regulatory Considerations\n" ++ rc ++ "\n    "

/-- `format_augmented_response` from `main.py`: pure string templating over
the augmented response.  It reads only `initial_response.response_text` and
the three insight lists; each list is rendered one bullet per entry and
joined with single newlines (an empty list yields an empty section body). -/
def format_augmented_response (a : AugmentedResponse) : String :=
  combineSections a.initial_response.response_text
    (String.intercalate "\n" (a.market_insights.market_trends.map formatMarketTrend))
    (String.intercalate "\n" (a.market_insights.competitive_landscape.map formatCompetitor))
    (String.intercalate "\n" (a.market_insights.regulatory_considerations.map formatRegulatory))

/-- Claim C8: the Response Formatter is deterministic pure string templating:
its output is a function of the answer text and the market insights alone.
In particular two formatting calls on the same `AugmentedResponse` value give
byte-identical strings, and the `timestamp` field (the only time-dependent
datum in scope) never reaches the formatted body. -/
theorem format_augmented_response_deterministic (a b : AugmentedResponse)
    (h1 : a.initial_response.response_text = b.initial_response.response_text)
    (h2 : a.market_insights = b.market_insights) :
    format_augmented_response a = format_augmented_response b := by
  unfold format_augmented_response
  rw [h1, h2]

/-- Example insights used by the C8 witness. -/
def exampleInsights : NewMarketInsights :=
  ⟨[⟨"Fitness awareness", "Positive", "8 percent growth in energy bar demand"⟩],
   [],
   [⟨"Nutrition labeling", "Next quarter", "Neutral", "New labeling requirements"⟩]⟩

/-- Witness for C8: two concrete augmented responses that agree on the answer
text and the insights but have different timestamps format to the same
string. -/
theorem format_augmented_response_deterministic_witness :
    format_augmented_response ⟨⟨"Stable sales expected.", [], "next month"⟩, exampleInsights, 0⟩ =
      format_augmented_response
        ⟨⟨"Stable sales expected.", [⟨"Energy Bars"⟩], "next month"⟩, exampleInsights, 999⟩ :=
  format_augmented_response_deterministic _ _ rfl rfl

/-! ## Dynamic values of the orchestration layer

The orchestrator moves values between components whose static type
annotations disagree with what actually flows at run time, so the embedding
of `main`, `process_sales_query` and `augment_sales_response` works on a
dynamic value type with Python attribute-access semantics: accessing an
attribute a value does not define raises `AttributeError`. -/

/-- A run-time Python value of the orchestration layer. -/
inductive PyVal where
  | str (s : String)
  | intVal (n : Int)
  | pyNone
  | list (xs : List PyVal)
  | dict (entries : List (String × PyVal))
  | productObj (name : String)
  | salesAnalysis (r : SalesAnalysisResponse)
  | inventoryResp (answer : String) (source : String)
  | salesResponse (query : String) (response_text : String) (data : PyVal) (timestamp : Nat)
  | tuple2 (a b : PyVal)

/-- A Python exception of the orchestration layer. -/
inductive PyErr where
  | attributeError (attr : String)
  | indexError
  | typeError (msg : String)
  | exception (msg : String)
  | validationError (msg : String)
deriving DecidableEq, Repr

/-- Python attribute access on the modelled values.  Each case lists exactly
the fields the corresponding Python class defines: `SalesAnalysisResponse`
has `response_text`, `products`, `time_period` (and no `data`);
`SalesResponse` has `query`, `response_text`, `data`, `timestamp`;
`InventoryResponse` has `answer`, `source`; the nested `Product` has `name`.
Tuples, lists, dicts, strings, numbers and `None` define none of these
attributes. -/
def pyAttr : PyVal → String → Option PyVal
  | PyVal.salesAnalysis r, attr =>
    if attr == "response_text" then some (PyVal.str r.response_text)
    else if attr == "products" then
      some (PyVal.list (r.products.map (fun p => PyVal.productObj p.name)))
    else if attr == "time_period" then some (PyVal.str r.time_period)
    else none
  | PyVal.salesResponse q rt d ts, attr =>
    if attr == "query" then some (PyVal.str q)
    else if attr == "response_text" then some (PyVal.str rt)
    else if attr == "data" then some d
    else if attr == "timestamp" then some (PyVal.intVal ts)
    else none
  | PyVal.inventoryResp ans src, attr =>
    if attr == "answer" then some (PyVal.str ans)
    else if attr == "source" then some (PyVal.str src)
    else none
  | PyVal.productObj n, attr =>
    if attr == "name" then some (PyVal.str n) else none
  | _, _ => none

/-- Attribute access as an exception-raising operation. -/
def getattrE (v : PyVal) (attr : String) : Except PyErr PyVal :=
  match pyAttr v attr with
  | some x => Except.ok x
  | none => Except.error (PyErr.attributeError attr)

/-- `value.get(key, default)`: defined on dicts; on every other value the
`get` attribute itself is missing, raising `AttributeError` (in particular on
`None`, the default of the optional `data` field). -/
def pyDictGet (v : PyVal) (key : String) (dflt : PyVal) : Except PyErr PyVal :=
  match v with
  | PyVal.dict entries => Except.ok ((entries.lookup key).getD dflt)
  | _ => Except.error (PyErr.attributeError "get")

/-- Python truthiness of the modelled values. -/
def pyTruthy : PyVal → Bool
  | PyVal.str s => s != ""
  | PyVal.intVal n => n != 0
  | PyVal.pyNone => false
  | PyVal.list xs => !xs.isEmpty
  | PyVal.dict es => !es.isEmpty
  | _ => true

/-- `value[0]`. -/
def pyIndex0 : PyVal → Except PyErr PyVal
  | PyVal.list (x :: _) => Except.ok x
  | PyVal.list [] => Except.error PyErr.indexError
  | PyVal.str s =>
    match s.data with
    | c :: _ => Except.ok (PyVal.str (String.mk [c]))
    | [] => Except.error PyErr.indexError
  | _ => Except.error (PyErr.typeError "object is not subscriptable")

/-- `len(value)`. -/
def pyLenE : PyVal → Except PyErr Nat
  | PyVal.list xs => Except.ok xs.length
  | PyVal.str s => Except.ok s.length
  | PyVal.dict es => Except.ok es.length
  | PyVal.tuple2 _ _ => Except.ok 2
  | _ => Except.error (PyErr.typeError "object has no len")

/-- `value != "literal"`: string comparison, true for every non-string value. -/
def pyNeStr (v : PyVal) (s : String) : Bool :=
  match v with
  | PyVal.str t => t != s
  | _ => true

/-- `str(value)` as used by f-strings and the chat interface.  The catch-all
models the default object representation; the memory address Python would
include is outside the model (the case is reached by no claim). -/
def pyToString : PyVal → String
  | PyVal.str s => s
  | PyVal.intVal n => toString n
  | PyVal.pyNone => "None"
  | _ => "<object>"

/-! ## Market Augmenter (`assistant_client.py`, `augment_sales_response`) -/

/-- `MarketInsights` from `schema.py`: the loose model actually constructed by
`augment_sales_response` — three lists of string-to-string dicts (modelled as
association lists). -/
structure MarketInsights where
  market_trends : List (List (String × String))
  competitive_landscape : List (List (String × String))
  regulatory_considerations : List (List (String × String))
deriving DecidableEq, Repr

/-- The placeholder object the `except (json.JSONDecodeError, ValueError)`
branch of `augment_sales_response` builds when parsing fails. -/
def placeholderMarketInsights : MarketInsights :=
  ⟨[[("description", "Could not parse market trends"), ("impact", "Unknown")]],
   [[("description", "Could not parse competitive landscape"), ("impact", "Unknown")]],
   [[("description", "Could not parse regulatory considerations"), ("impact", "Unknown")]]⟩

/-- Split a character list at the first occurrence of a pattern: returns the
characters before the occurrence and the characters after it, or `none` when
the pattern does not occur. -/
def findSplit (pat : List Char) : List Char → Option (List Char × List Char)
  | [] => if pat.isEmpty then some ([], []) else none
  | c :: rest =>
    if pat.isPrefixOf (c :: rest) then some ([], (c :: rest).drop pat.length)
    else
      match findSplit pat rest with
      | some (before, after) => some (c :: before, after)
      | none => none

/-- Python `pat in s` (substring containment). -/
def strContains (s pat : String) : Bool :=
  (findSplit pat.data s.data).isSome

/-- The part of `s` after the first occurrence of `pat`
(`s.split(pat, 1)[1]`; the call sites guard occurrence with `strContains`). -/
def splitOnceTail (s pat : String) : String :=
  match findSplit pat.data s.data with
  | some (_, after) => String.mk after
  | none => ""

/-- The part of `s` before the first occurrence of `pat`
(`s.split(pat, 1)[0]`). -/
def splitOnceHead (s pat : String) : String :=
  match findSplit pat.data s.data with
  | some (before, _) => String.mk before
  | none => s

/-- Python `str.strip()`: remove leading and trailing whitespace. -/
def pyStrip (s : String) : String :=
  String.mk (((s.data.dropWhile Char.isWhitespace).reverse.dropWhile Char.isWhitespace).reverse)

/-- The JSON-extraction logic of `augment_sales_response`: if the assistant
reply carries a ```` ```json ```` code fence with a closing ```` ``` ````,
parse the stripped fenced content, otherwise parse the whole reply.  `loads`
stands for `json.loads` followed by `MarketInsights(**dict)` validation —
standard-library and Pydantic behaviour external to this repository — and
returns `none` exactly when that pair raises `json.JSONDecodeError` or
`ValueError`. -/
def attemptParse (loads : String → Option MarketInsights) (assistant_response : String) :
    Option MarketInsights :=
  if strContains assistant_response "```json" &&
      strContains (splitOnceTail assistant_response "```json") "```" then
    loads (pyStrip (splitOnceHead (splitOnceTail assistant_response "```json") "```"))
  else loads assistant_response

/-- The whole parse section: a failed parse is caught and replaced by the
placeholder object. -/
def parseMarketInsights (loads : String → Option MarketInsights)
    (assistant_response : String) : MarketInsights :=
  (attemptParse loads assistant_response).getD placeholderMarketInsights

/-- Side effects of one `augment_sales_response` call: how many threads,
messages and runs were created on the external API, and at which times the
run status was polled. -/
structure AugmentEvents where
  threads_created : Nat
  messages_created : Nat
  runs_created : Nat
  poll_times : List Nat
deriving DecidableEq, Repr

/-- The events of a call that failed before touching the external API. -/
def noAugmentEvents : AugmentEvents := ⟨0, 0, 0, []⟩

/-- The value `AugmentedResponse(initial_response=..., market_insights=...)`
would hold if its construction validated, carrying whatever run-time value
was passed as `sales_response`. -/
structure AugmentedResponseValue where
  initial_response : PyVal
  market_insights : MarketInsights

/-- The `AugmentedResponse(initial_response=..., market_insights=...)`
construction at the end of `augment_sales_response`.  Pydantic validates the
arguments against the declared field types of `schema.py`
(`initial_response : SalesAnalysisResponse`,
`market_insights : NewMarketInsights`).  The `market_insights` argument is by
construction an instance of the LOOSE `MarketInsights` model — never a dict
and never a `NewMarketInsights` — so pydantic rejects that field with a
`model_type` error on every call; the `initial_response` argument at the
only call site that reaches this point is a `SalesResponse`-shaped value
(the sole value shape with a `data` attribute) and fails the same way.  The
field errors are collected into one `ValidationError`, raised outside the
inner `except (json.JSONDecodeError, ValueError)` block, so the construction
never succeeds and the error propagates to the caller. -/
def AugmentedResponseConstruct (_initial_response : PyVal)
    (_market_insights : MarketInsights) : Except PyErr AugmentedResponseValue :=
  Except.error (PyErr.validationError
    "validation error for AugmentedResponse: market_insights: input should be a valid dictionary or instance of NewMarketInsights")

/-- `augment_sales_response` from `assistant_client.py` over the dynamic
value model.  Steps, in source order: read `sales_response.data` (attribute
access), read `products` and `time_period` from it with `.get`, take
`products[0] if products else "unknown"`, create a thread, add a message,
create a run, wait for it with `_wait_for_run` (default 120-unit ceiling),
then fetch the latest assistant message (`assistantMsg`, an external model
output), parse it (substituting the placeholder on parse failure) and build
`AugmentedResponse(...)`, whose pydantic validation rejects the arguments
(see `AugmentedResponseConstruct`).  The surrounding `try/except` only logs
and re-raises, so errors propagate unchanged. -/
def augment_sales_response (sales_response : PyVal) (poll : Nat → String)
    (assistantMsg : String) (loads : String → Option MarketInsights) :
    AugmentEvents × Except PyErr AugmentedResponseValue :=
  match getattrE sales_response "data" with
  | Except.error e => (noAugmentEvents, Except.error e)
  | Except.ok dataVal =>
    match pyDictGet dataVal "products" (PyVal.list []) with
    | Except.error e => (noAugmentEvents, Except.error e)
    | Except.ok productsVal =>
      match pyDictGet dataVal "time_period" (PyVal.str "unknown") with
      | Except.error e => (noAugmentEvents, Except.error e)
      | Except.ok _time_periodVal =>
        match (if pyTruthy productsVal then pyIndex0 productsVal
               else Except.ok (PyVal.str "unknown")) with
        | Except.error e => (noAugmentEvents, Except.error e)
        | Except.ok _productVal =>
          let wait := wait_for_run poll max_wait_seconds_default
          let events : AugmentEvents := ⟨1, 1, 1, wait.1⟩
          match wait.2 with
          | WaitOutcome.completed _ =>
            (events,
             AugmentedResponseConstruct sales_response (parseMarketInsights loads assistantMsg))
          | WaitOutcome.runFailed s _ =>
            (events, Except.error (PyErr.exception ("Assistant run failed with status: " ++ s)))
          | WaitOutcome.timeout _ =>
            (events, Except.error (PyErr.exception "Assistant run timed out"))

/-- Claim C9: called on any `SalesAnalysisResponse` value — the type of the
extraction result — `augment_sales_response` raises `AttributeError` on the
very first step (`sales_response.data`), because that model defines no `data`
field; no thread is created, no message or run is created, and the run
status is never polled. -/
theorem augment_sales_response_attribute_error (r : SalesAnalysisResponse)
    (poll : Nat → String) (assistantMsg : String)
    (loads : String → Option MarketInsights) :
    augment_sales_response (PyVal.salesAnalysis r) poll assistantMsg loads =
      (noAugmentEvents, Except.error (PyErr.attributeError "data")) := rfl

/-- A `loads` oracle on which every parse fails, modelling `json.loads` on a
reply that is not JSON (any call raises `json.JSONDecodeError`). -/
def loadsAlwaysFails : String → Option MarketInsights := fun _ => none

/-- A `SalesResponse` value whose `data` dict carries products and a time
period — the only value shape on which `augment_sales_response` reaches its
parse stage. -/
def exampleSalesResponseValue : PyVal :=
  PyVal.salesResponse "Will energy bar sales rise?" "Sales look stable."
    (PyVal.dict [("products", PyVal.list [PyVal.str "Energy Bars"]),
                 ("time_period", PyVal.str "next month")]) 0

/-- Counterexample to C2 as stated: on the concrete non-JSON assistant reply
`"hello"` (every `json.loads` call on it fails), `augment_sales_response`
does not fail with any parse error: the parse stage silently substitutes the
fixed placeholder insights object (second conjunct), and the call then fails
with the pydantic `ValidationError` of the `AugmentedResponse` construction
— no `AugmentationParseError` exists anywhere in the code. -/
theorem augment_parse_failure_counterexample :
    augment_sales_response exampleSalesResponseValue (fun _ => "completed") "hello"
        loadsAlwaysFails =
      (⟨1, 1, 1, [0]⟩,
       Except.error (PyErr.validationError
         "validation error for AugmentedResponse: market_insights: input should be a valid dictionary or instance of NewMarketInsights")) ∧
    parseMarketInsights loadsAlwaysFails "hello" = placeholderMarketInsights ∧
    placeholderMarketInsights.market_trends =
      [[("description", "Could not parse market trends"), ("impact", "Unknown")]] :=
  ⟨rfl, rfl, rfl⟩

/-- Claim C2 (amended): for every assistant reply on which the JSON parse
fails — and every `data`-carrying input and completed run — the Market
Augmenter raises no parse error at the parse stage: the except branch
silently substitutes the fixed placeholder `MarketInsights` object, and the
call then fails with a pydantic `ValidationError` at the
`AugmentedResponse` construction (whose declared field types reject the
loose placeholder value), outside the parse except-block.  No
`AugmentationParseError` exists anywhere in the code and no augmented result
is returned. -/
theorem augment_parse_failure_substitutes_placeholder
    (q rt : String) (ts : Nat) (entries : List (String × PyVal))
    (prods : List PyVal) (poll : Nat → String) (assistantMsg : String)
    (loads : String → Option MarketInsights) (t : Nat)
    (hprods : (entries.lookup "products").getD (PyVal.list []) = PyVal.list prods)
    (hrun : (wait_for_run poll max_wait_seconds_default).2 = WaitOutcome.completed t)
    (hparse : attemptParse loads assistantMsg = none) :
    parseMarketInsights loads assistantMsg = placeholderMarketInsights ∧
    augment_sales_response (PyVal.salesResponse q rt (PyVal.dict entries) ts) poll
        assistantMsg loads =
      (⟨1, 1, 1, (wait_for_run poll max_wait_seconds_default).1⟩,
       Except.error (PyErr.validationError
         "validation error for AugmentedResponse: market_insights: input should be a valid dictionary or instance of NewMarketInsights")) := by
  refine ⟨by simp only [parseMarketInsights, hparse, Option.getD_none], ?_⟩
  have hdata : getattrE (PyVal.salesResponse q rt (PyVal.dict entries) ts) "data"
      = Except.ok (PyVal.dict entries) := rfl
  have hprod2 : pyDictGet (PyVal.dict entries) "products" (PyVal.list [])
      = Except.ok (PyVal.list prods) := by
    rw [show pyDictGet (PyVal.dict entries) "products" (PyVal.list [])
        = Except.ok ((entries.lookup "products").getD (PyVal.list [])) from rfl, hprods]
  have htime : pyDictGet (PyVal.dict entries) "time_period" (PyVal.str "unknown")
      = Except.ok ((entries.lookup "time_period").getD (PyVal.str "unknown")) := rfl
  rcases hw : wait_for_run poll max_wait_seconds_default with ⟨polls, outcome⟩
  have hout : outcome = WaitOutcome.completed t := by
    have h2 := hrun
    rw [hw] at h2
    exact h2
  subst hout
  simp only [augment_sales_response, hdata, hprod2, htime, hw]
  cases prods with
  | nil =>
    simp only [show (if pyTruthy (PyVal.list []) then pyIndex0 (PyVal.list [])
        else Except.ok (PyVal.str "unknown")) = Except.ok (PyVal.str "unknown") from rfl]
    simp only [AugmentedResponseConstruct]
  | cons x xs =>
    simp only [show (if pyTruthy (PyVal.list (x :: xs)) then pyIndex0 (PyVal.list (x :: xs))
        else Except.ok (PyVal.str "unknown")) = Except.ok x from rfl]
    simp only [AugmentedResponseConstruct]

/-- Witness for the amended C2 at fully concrete inputs. -/
theorem augment_parse_failure_substitutes_placeholder_witness :
    parseMarketInsights loadsAlwaysFails "not json at all" = placeholderMarketInsights ∧
    augment_sales_response
        (PyVal.salesResponse "q" "Forecast text"
          (PyVal.dict [("products", PyVal.list []), ("time_period", PyVal.str "next year")]) 3)
        (fun _ => "completed") "not json at all" loadsAlwaysFails =
      (⟨1, 1, 1, [0]⟩,
       Except.error (PyErr.validationError
         "validation error for AugmentedResponse: market_insights: input should be a valid dictionary or instance of NewMarketInsights")) := by
  have h := augment_parse_failure_substitutes_placeholder "q" "Forecast text" 3
    [("products", PyVal.list []), ("time_period", PyVal.str "next year")] []
    (fun _ => "completed") "not json at all" loadsAlwaysFails 0 rfl rfl rfl
  simpa using h

/-! ## Query Extractor wrapper (`openai_client.py`, `process_sales_query`)
and the orchestrator (`main.py`, `main`) -/

/-- `process_sales_query` from `openai_client.py`.  The LLM structured
completion is external, so the parsed extraction result `r` is a parameter;
likewise the Inventory Responder round-trip it triggers is external I/O whose
structured result is the parameter `inv`.  Faithful to the source, it returns
the PAIR `(sales_response, inventory_response)` — despite its own annotation
`-> SalesAnalysisResponse` — calling the inventory round-trip exactly when
the parsed products list is truthy (non-empty) and placing `None` in the
second slot otherwise.  The second component counts the
`process_inventory_query` invocations it performed. -/
def process_sales_query (r : SalesAnalysisResponse) (inv : InventoryResponse) :
    PyVal × Nat :=
  if r.products.isEmpty then
    (PyVal.tuple2 (PyVal.salesAnalysis r) PyVal.pyNone, 0)
  else
    (PyVal.tuple2 (PyVal.salesAnalysis r) (PyVal.inventoryResp inv.answer inv.source), 1)

/-- `format_augmented_response` as reached from `main` with the dynamic
augmented value: it first reads `initial_response.response_text`, then loops
over the three insight lists.  In this call path the entries are plain dicts
(`MarketInsights` fields are `List[Dict[str, str]]`), and Python dicts expose
keys by subscript, not as attributes, so the first iteration of a non-empty
loop raises `AttributeError` on `.trend` / `.competitor` / `.regulation`;
empty lists skip their loop bodies and render empty section bodies. -/
def format_augmented_response_dyn (a : AugmentedResponseValue) : Except PyErr String :=
  match getattrE a.initial_response "response_text" with
  | Except.error e => Except.error e
  | Except.ok v =>
    match a.market_insights.market_trends with
    | _ :: _ => Except.error (PyErr.attributeError "trend")
    | [] =>
      match a.market_insights.competitive_landscape with
      | _ :: _ => Except.error (PyErr.attributeError "competitor")
      | [] =>
        match a.market_insights.regulatory_considerations with
        | _ :: _ => Except.error (PyErr.attributeError "regulation")
        | [] => Except.ok (combineSections (pyToString v) "" "" "")

/-- What one user-input round of `main` produced: the number of
`process_inventory_query` invocations (anywhere), the number of
`augment_sales_response` invocations, the chat messages added via
`add_assistant_message`, and the error surfaced by the top-level
`except Exception` handler (`st.error`), if any. -/
structure MainOutcome where
  inventory_calls : Nat
  augment_calls : Nat
  assistant_messages : List String
  error_shown : Option PyErr
deriving DecidableEq, Repr

/-- The query-processing path of `main` from `main.py`, in source order:
run `process_sales_query`; display the intermediate markdown reading
`sales_response.response_text`; compute `has_product` from
`len(sales_response.products)`; if products, run the inventory round-trip
and display `inventory_response.answer`; read `sales_response.time_period`;
if both gates hold, run `augment_sales_response` and format the result, then
add the inventory message (string concatenation of `answer` and `source`)
and the formatted message; otherwise add the plain
`sales_response.response_text`.  Any exception is caught by the top-level
handler and surfaced via `st.error`. -/
def main (r : SalesAnalysisResponse) (inv : InventoryResponse) (poll : Nat → String)
    (assistantMsg : String) (loads : String → Option MarketInsights) : MainOutcome :=
  match process_sales_query r inv with
  | (sales_response, invCalls1) =>
    match getattrE sales_response "response_text" with
    | Except.error e => ⟨invCalls1, 0, [], some e⟩
    | Except.ok _ =>
      match getattrE sales_response "products" with
      | Except.error e => ⟨invCalls1, 0, [], some e⟩
      | Except.ok productsVal =>
        match pyLenE productsVal with
        | Except.error e => ⟨invCalls1, 0, [], some e⟩
        | Except.ok n =>
          if 0 < n then
            let inventory_response := PyVal.inventoryResp inv.answer inv.source
            match getattrE inventory_response "answer" with
            | Except.error e => ⟨invCalls1 + 1, 0, [], some e⟩
            | Except.ok _ =>
              match getattrE sales_response "time_period" with
              | Except.error e => ⟨invCalls1 + 1, 0, [], some e⟩
              | Except.ok time_periodVal =>
                if pyNeStr time_periodVal "unknown" then
                  match augment_sales_response sales_response poll assistantMsg loads with
                  | (_, Except.error e) => ⟨invCalls1 + 1, 1, [], some e⟩
                  | (_, Except.ok augmented) =>
                    match format_augmented_response_dyn augmented with
                    | Except.error e => ⟨invCalls1 + 1, 1, [], some e⟩
                    | Except.ok formatted =>
                      match getattrE inventory_response "answer",
                            getattrE inventory_response "source" with
                      | Except.ok (PyVal.str ans), Except.ok (PyVal.str src) =>
                        ⟨invCalls1 + 1, 1,
                         [ans ++ " (Inventory ID: " ++ src ++ ")", formatted], none⟩
                      | _, _ =>
                        ⟨invCalls1 + 1, 1, [],
                         some (PyErr.typeError "can only concatenate str to str")⟩
                else
                  match getattrE sales_response "response_text" with
                  | Except.error e => ⟨invCalls1 + 1, 0, [], some e⟩
                  | Except.ok v => ⟨invCalls1 + 1, 0, [pyToString v], none⟩
          else
            match getattrE sales_response "time_period" with
            | Except.error e => ⟨invCalls1, 0, [], some e⟩
            | Except.ok _ =>
              match getattrE sales_response "response_text" with
              | Except.error e => ⟨invCalls1, 0, [], some e⟩
              | Except.ok v => ⟨invCalls1, 0, [pyToString v], none⟩

/-- The failing input of C1: an extraction result with no products, for which
the claim expects the plain answer text to be returned verbatim. -/
def exampleExtractionNoProducts : SalesAnalysisResponse :=
  ⟨"Sales look stable.", [], "next month"⟩

/-- A products-bearing extraction result. -/
def exampleExtractionWithProducts : SalesAnalysisResponse :=
  ⟨"Forecast: up 5 percent.", [⟨"Energy Bars"⟩], "next month"⟩

/-- A concrete inventory round-trip result. -/
def exampleInventoryResponse : InventoryResponse :=
  ⟨"There are 500 units in stock.", "INV-3"⟩

/-- Claim C1 evaluated at the failing input (code bug): on an extraction
result with an empty products list the pipeline indeed invokes neither the
Inventory Responder nor the Market Augmenter, but it does NOT return the
plain answer text: `process_sales_query` returns a pair (contradicting its
own `-> SalesAnalysisResponse` annotation), so the very first read of
`sales_response.response_text` in `main` raises `AttributeError` and the
round ends with an error message and no assistant message at all.  The
augmentation gate of the claim is therefore never even reached. -/
theorem main_empty_products_attribute_error :
    main exampleExtractionNoProducts exampleInventoryResponse (fun _ => "completed") ""
        loadsAlwaysFails =
      ⟨0, 0, [], some (PyErr.attributeError "response_text")⟩ := rfl

/-- Counterexample to C10 as stated: on a concrete products-bearing query the
inventory round-trip is performed exactly once — by `process_sales_query`
itself — not a second time: `main` crashes on the tuple before its own
`process_inventory_query` call. -/
theorem single_inventory_round_trip_counterexample :
    (main exampleExtractionWithProducts exampleInventoryResponse (fun _ => "completed") ""
        loadsAlwaysFails).inventory_calls = 1 ∧
    (main exampleExtractionWithProducts exampleInventoryResponse (fun _ => "completed") ""
        loadsAlwaysFails).error_shown = some (PyErr.attributeError "response_text") :=
  ⟨rfl, rfl⟩

/-- Claim C10 (amended): `process_sales_query` returns the pair
`(sales_response, inventory_response)` and itself performs the inventory
round-trip exactly when the parsed products list is non-empty (placing `None`
in the second slot otherwise); the second `process_inventory_query` call in
the orchestrator text is unreachable — every round fails with
`AttributeError` on `sales_response.response_text` first — so the round-trip
runs exactly once per products-bearing query, not twice. -/
theorem process_sales_query_pair_spec (r : SalesAnalysisResponse)
    (inv : InventoryResponse) (poll : Nat → String) (assistantMsg : String)
    (loads : String → Option MarketInsights) :
    process_sales_query r inv =
      (PyVal.tuple2 (PyVal.salesAnalysis r)
        (if r.products.isEmpty then PyVal.pyNone
         else PyVal.inventoryResp inv.answer inv.source),
       if r.products.isEmpty then 0 else 1) ∧
    (main r inv poll assistantMsg loads).inventory_calls =
      (if r.products.isEmpty then 0 else 1) ∧
    (main r inv poll assistantMsg loads).augment_calls = 0 ∧
    (main r inv poll assistantMsg loads).assistant_messages = [] ∧
    (main r inv poll assistantMsg loads).error_shown =
      some (PyErr.attributeError "response_text") := by
  by_cases h : r.products.isEmpty <;>
    simp [process_sales_query, main, getattrE, pyAttr, h]

end SalesForecasting
